import Mathlib

/-!
Verification development for the pypsa-china-7node repository.

The file shallowly embeds the two source modules:
* `network.py` — the `NetworkBuilder` class (namespace `NetworkBuilder` below);
* `main.py` — the workflow entry point (namespace `Main` below).

Python floats that carry the `float("inf")` sentinel are embedded as the type
`Flt` (a finite rational or the float infinity); all other numeric data is
embedded as `ℚ`.  Time series are lists of rationals, the snapshot index is a
list of naturals.  The `DataProcessor` collaborator (module `data.py`,
specified only through its interface) is a structure of functions.  Calls to
`logger.warning` during network assembly are collected in the `warnings`
field of the assembled network.
-/

/-- A Python float as stored in the network's numeric fields: either a finite
rational value or the IEEE positive infinity produced by `float("inf")`. -/
inductive Flt where
  | val (q : ℚ)
  | inf
deriving DecidableEq

/-- One element of `data_processor.get_generators_data(year)`: a dict with
keys `region`, `type`, `capacity` (network.py lines 148-151). -/
structure GenRecord where
  region : String
  type : String
  capacity : ℚ
deriving DecidableEq

/-- The configuration slice read by `NetworkBuilder.__init__` and
`_add_generators` (network.py lines 26-31, 145-146).  The Python dicts
`min_technical_output` and `marginal_costs` are association lists. -/
structure Config where
  regions : List String
  links : List (String × String)
  ens_cost : ℚ
  transmission_hurdle_cost : ℚ
  min_technical_output : List (String × ℚ)
  marginal_costs : List (String × ℚ)
deriving DecidableEq

/-- The `DataProcessor` collaborator interface used by `create_network`
(network.py lines 51, 76-85, 124-125, 144, 170).  `get_demand_data` returns
`none` for a region absent from the demand frame's columns;
`get_demand_scale_factors year` returns `none` for a region absent from that
year's scale-factor table; `get_renewable_profile` returns `none` when no
profile exists (the Python `None`). -/
structure DataProcessor where
  get_timestamps : List ℕ
  get_transmission_capacity : String → String → ℕ → ℚ
  get_demand_data : String → Option (List ℚ)
  get_demand_scale_factors : ℕ → String → Option ℚ
  get_generators_data : ℕ → List GenRecord
  get_renewable_profile : String → String → Option (List ℚ)

/-- A PyPSA `Bus` as added by `_add_buses` (network.py line 67). -/
structure Bus where
  name : String
  carrier : String
deriving DecidableEq

/-- A PyPSA `Link` with the attributes set by `_add_transmission_links`
(network.py lines 91-118); `p_nom_max` is the PyPSA component attribute that
defaults to `+inf` when `network.add` is not given one. -/
structure Link where
  name : String
  bus0 : String
  bus1 : String
  p_nom : Flt
  p_min_pu : ℚ
  p_max_pu : ℚ
  marginal_cost : ℚ
  p_nom_extendable : Bool
  p_nom_max : Flt
deriving DecidableEq

/-- A PyPSA `Load` as added by `_add_loads` (network.py lines 133-136). -/
structure Load where
  name : String
  bus : String
  p_set : List ℚ
deriving DecidableEq

/-- A PyPSA `Generator` as added by `_add_generators` and
`_add_ens_generators` (network.py lines 159-166, 179-186).  The per-snapshot
availability override written to `network.generators_t.p_max_pu[gen_name]`
(line 172) is carried on the record as `p_max_pu_t`. -/
structure Generator where
  name : String
  bus : String
  carrier : String
  p_nom : Flt
  marginal_cost : ℚ
  p_min_pu : ℚ
  p_max_pu : ℚ
  p_max_pu_t : Option (List ℚ)
deriving DecidableEq

/-- The assembled network model, together with the `logger.warning` messages
emitted while building it (the only warning site in network.py is line 138). -/
structure Network where
  snapshots : List ℕ
  buses : List Bus
  links : List Link
  loads : List Load
  generators : List Generator
  warnings : List String
deriving DecidableEq

namespace NetworkBuilder

/-- `_add_buses` (network.py lines 64-69). -/
def add_buses (regions : List String) : List Bus :=
  regions.map fun region => { name := region, carrier := "AC" }

/-- The year-tiered branch at the top of the corridor loop of
`_add_transmission_links` (network.py lines 75-87).  Returns the triple
`(capacity, extendable, p_nom_max)`; `p_nom_max = none` embeds the Python
`None` of the 2020 branch, and the final `else` branch (commented `# 2050` in
the source) yields `float("inf")`. -/
def transmission_policy (year : ℕ) (getCap : ℕ → ℚ) : ℚ × Bool × Option Flt :=
  if year = 2020 then (getCap year, false, none)
  else if year = 2030 then (getCap 2020, true, some (Flt.val (getCap year)))
  else (getCap 2020, true, some Flt.inf)

/-- One `network.add("Link", ...)` call (network.py lines 91-99 and 107-115):
the attributes passed explicitly, plus PyPSA's default `p_nom_max = +inf`. -/
def mk_link (name bus0 bus1 : String) (capacity : ℚ) (hurdle : ℚ)
    (extendable : Bool) : Link :=
  { name := name, bus0 := bus0, bus1 := bus1, p_nom := Flt.val capacity,
    p_min_pu := -1, p_max_pu := 1, marginal_cost := hurdle,
    p_nom_extendable := extendable, p_nom_max := Flt.inf }

/-- The statement `network.links.at[name, "p_nom_max"] = v` (network.py
lines 103 and 118): a by-label update of the links table. -/
def set_p_nom_max (links : List Link) (name : String) (v : Flt) : List Link :=
  links.map fun l => if l.name = name then { l with p_nom_max := v } else l

/-- The guarded capacity-limit update `if extendable and p_nom_max is not
None: ...` (network.py lines 102-103 and 117-118). -/
def apply_p_nom_max (links : List Link) (name : String) (extendable : Bool)
    (pmax : Option Flt) : List Link :=
  match pmax with
  | some v => if extendable then set_p_nom_max links name v else links
  | none => links

/-- The body of the corridor loop of `_add_transmission_links` (network.py
lines 73-118): add the forward link, apply its capacity limit, add the
reverse link, apply its capacity limit. -/
def add_corridor (year : ℕ) (getCap : String → String → ℕ → ℚ) (hurdle : ℚ)
    (links : List Link) (corridor : String × String) : List Link :=
  let pol := transmission_policy year (getCap corridor.1 corridor.2)
  let capacity := pol.1
  let extendable := pol.2.1
  let p_nom_max := pol.2.2
  let link_name := corridor.1 ++ "-" ++ corridor.2
  let links1 := links ++ [mk_link link_name corridor.1 corridor.2 capacity hurdle extendable]
  let links2 := apply_p_nom_max links1 link_name extendable p_nom_max
  let reverse_link_name := corridor.2 ++ "-" ++ corridor.1
  let links3 := links2 ++ [mk_link reverse_link_name corridor.2 corridor.1 capacity hurdle extendable]
  apply_p_nom_max links3 reverse_link_name extendable p_nom_max

/-- `_add_transmission_links` (network.py lines 71-120). -/
def add_transmission_links (corridors : List (String × String)) (year : ℕ)
    (getCap : String → String → ℕ → ℚ) (hurdle : ℚ) : List Link :=
  corridors.foldl (add_corridor year getCap hurdle) []

/-- The names of the two directed links generated for a corridor
(network.py lines 90 and 106). -/
def corridor_names (c : String × String) : List String :=
  [c.1 ++ "-" ++ c.2, c.2 ++ "-" ++ c.1]

/-- The effect of `apply_p_nom_max` on one link record. -/
def resolve_link (extendable : Bool) (pmax : Option Flt) (l : Link) : Link :=
  match pmax with
  | some v => if extendable then { l with p_nom_max := v } else l
  | none => l

/-- The two directed links `_add_transmission_links` produces for one
corridor, with their capacity limits applied. -/
def corridor_links (year : ℕ) (getCap : String → String → ℕ → ℚ) (hurdle : ℚ)
    (c : String × String) : List Link :=
  let pol := transmission_policy year (getCap c.1 c.2)
  [resolve_link pol.2.1 pol.2.2 (mk_link (c.1 ++ "-" ++ c.2) c.1 c.2 pol.1 hurdle pol.2.1),
   resolve_link pol.2.1 pol.2.2 (mk_link (c.2 ++ "-" ++ c.1) c.2 c.1 pol.1 hurdle pol.2.1)]

/-- `_add_loads` (network.py lines 122-140), processing the configured
regions in order; returns the loads added and the `logger.warning` messages
emitted (line 138). -/
def add_loads (regions : List String) (load_data : String → Option (List ℚ))
    (scale_factors : String → Option ℚ) : List Load × List String :=
  match regions with
  | [] => ([], [])
  | region :: rest =>
    let tail := add_loads rest load_data scale_factors
    match load_data region, scale_factors region with
    | some series, some factor =>
        ({ name := region ++ "-load", bus := region,
           p_set := series.map (fun x => x * factor) } :: tail.1, tail.2)
    | none, _ =>
        (tail.1, ("Region " ++ region ++ " is missing load data or scaling factor") :: tail.2)
    | some _, none =>
        (tail.1, ("Region " ++ region ++ " is missing load data or scaling factor") :: tail.2)

/-- The Python `dict.get(key, default)` on an association list. -/
def dict_get (m : List (String × ℚ)) (key : String) (dflt : ℚ) : ℚ :=
  match m.lookup key with
  | some v => v
  | none => dflt

/-- One iteration of the generator loop of `_add_generators` (network.py
lines 148-172): parameter lookup with defaults 0 and 100, the
`network.add("Generator", ...)` call, and — for `type` in
`["wind", "solar", "hydro"]` — the availability-profile fetch and the
override of `generators_t.p_max_pu` when the profile is not `None`. -/
def mk_generator (min_output marginal_costs : List (String × ℚ))
    (get_profile : String → String → Option (List ℚ)) (g : GenRecord) : Generator :=
  { name := g.region ++ "-" ++ g.type, bus := g.region, carrier := g.type,
    p_nom := Flt.val g.capacity,
    marginal_cost := dict_get marginal_costs g.type 100,
    p_min_pu := dict_get min_output g.type 0,
    p_max_pu := 1,
    p_max_pu_t :=
      if g.type ∈ (["wind", "solar", "hydro"] : List String) then
        get_profile g.region g.type
      else none }

/-- `_add_generators` (network.py lines 142-174). -/
def add_generators (gens : List GenRecord) (min_output marginal_costs : List (String × ℚ))
    (get_profile : String → String → Option (List ℚ)) : List Generator :=
  gens.map (mk_generator min_output marginal_costs get_profile)

/-- `_add_ens_generators` (network.py lines 176-188): one ENS slack generator
per configured region, with `p_nom = float("inf")`. -/
def add_ens_generators (regions : List String) (ens_cost : ℚ) : List Generator :=
  regions.map fun region =>
    { name := region ++ "-ENS", bus := region, carrier := "ENS",
      p_nom := Flt.inf, marginal_cost := ens_cost,
      p_min_pu := 0, p_max_pu := 1, p_max_pu_t := none }

/-- `create_network` (network.py lines 35-62): snapshots, buses, transmission
links, loads, generators, ENS generators, in that order. -/
def create_network (config : Config) (year : ℕ) (dp : DataProcessor) : Network :=
  let loads := add_loads config.regions dp.get_demand_data (dp.get_demand_scale_factors year)
  { snapshots := dp.get_timestamps
    buses := add_buses config.regions
    links := add_transmission_links config.links year dp.get_transmission_capacity
      config.transmission_hurdle_cost
    loads := loads.1
    generators :=
      add_generators (dp.get_generators_data year) config.min_technical_output
        config.marginal_costs dp.get_renewable_profile
      ++ add_ens_generators config.regions config.ens_cost
    warnings := loads.2 }

end NetworkBuilder

namespace Main

/-- The configuration slice read by `setup_directories` and `run_workflow`
(main.py lines 71, 75, 84, 125, 139, 149). -/
structure MainConfig where
  output_dir : String
  model_years : List ℕ
  save_networks : Bool
  create_plots : Bool
  create_report : Bool

/-- A minimal filesystem state: the directories that exist and the files
written so far. -/
structure FS where
  dirs : List String
  files : List String
deriving DecidableEq

/-- `Path.mkdir(exist_ok=True)`: create the directory if it is not there. -/
def mkdir (fs : FS) (d : String) : FS :=
  if d ∈ fs.dirs then fs else { fs with dirs := fs.dirs ++ [d] }

/-- The per-year subdirectory `output_dir / str(year)` (main.py line 76);
Python's `str` on a non-negative int is decimal, i.e. `Nat.repr`. -/
def year_dir (output_dir : String) (year : ℕ) : String :=
  output_dir ++ "/" ++ Nat.repr year

/-- `setup_directories` (main.py lines 68-79) on a fresh filesystem: create
the results directory, then one subdirectory per configured model year. -/
def setup_directories (config : MainConfig) : FS :=
  config.model_years.foldl (fun fs year => mkdir fs (year_dir config.output_dir year))
    (mkdir { dirs := [], files := [] } config.output_dir)

/-- Writing a file into directory `d` fails when `d` does not exist (the
Python `FileNotFoundError` raised by `to_csv`/`export_to_netcdf` for a
missing parent directory). -/
def write_file (fs : FS) (d : String) (file : String) : Except String FS :=
  if d ∈ fs.dirs then
    Except.ok { fs with files := fs.files ++ [d ++ "/" ++ file] }
  else Except.error ("No such directory: " ++ d)

/-- Step 4 of the per-year loop of `run_workflow` (main.py lines 124-132):
the optional netcdf export and then the LOLE csv write, both placed in
`output_dir / str(year)`. -/
def save_year_results (config : MainConfig) (fs : FS) (year : ℕ) : Except String FS :=
  let d := year_dir config.output_dir year
  match (if config.save_networks then
           write_file fs d ("network_" ++ Nat.repr year ++ ".nc")
         else Except.ok fs) with
  | Except.error e => Except.error e
  | Except.ok fs1 => write_file fs1 d ("lole_" ++ Nat.repr year ++ ".csv")

/-- The per-year loop of `run_workflow` (main.py lines 104-136) restricted to
its filesystem effects, aborting at the first raised exception (which in
main.py propagates out of `run_workflow` to the handler in `main`). -/
def run_years (config : MainConfig) (fs : FS) : List ℕ → Except String FS
  | [] => Except.ok fs
  | year :: rest =>
    match save_year_results config fs year with
    | Except.error e => Except.error e
    | Except.ok fs1 => run_years config fs1 rest

/-- Line 84 of main.py: `years = args.years if args.years else
config['model']['years']` (argparse `nargs='+'` makes `args.years` either
absent or a non-empty list). -/
def resolve_years (config : MainConfig) (arg_years : Option (List ℕ)) : List ℕ :=
  match arg_years with
  | some ys => ys
  | none => config.model_years

/-- Steps 5-6 of `run_workflow` (main.py lines 138-151).  The local variable
`visualizer` is assigned only inside the `create_plots` branch, so it is
embedded as an `Option` that is `none` when that branch is skipped; the
report step then references it, which for an unbound Python local raises
`UnboundLocalError`, a subclass of `NameError`. -/
def finalize_workflow (config : MainConfig) : Except String Unit :=
  let visualizer : Option Unit := if config.create_plots then some () else none
  if config.create_report then
    match visualizer with
    | some _ => Except.ok ()
    | none => Except.error "NameError: name visualizer is not defined"
  else Except.ok ()

/-- `run_workflow` (main.py lines 81-153) restricted to its filesystem and
name-binding effects: resolve the years to run, set up the directories, run
the per-year pipeline, then the plotting/report tail. -/
def run_workflow (config : MainConfig) (arg_years : Option (List ℕ)) : Except String FS :=
  let years := resolve_years config arg_years
  let fs := setup_directories config
  match run_years config fs years with
  | Except.error e => Except.error e
  | Except.ok fs1 =>
    match finalize_workflow config with
    | Except.error e => Except.error e
    | Except.ok _ => Except.ok fs1

/-- A `MainConfig` mirroring the shipped configuration surface: the three
planning years and all result outputs enabled. -/
def demo_main_config : MainConfig :=
  { output_dir := "results", model_years := [2020, 2030, 2050],
    save_networks := true, create_plots := true, create_report := true }

/-- `demo_main_config` with `create_plots` disabled but `create_report`
still enabled. -/
def demo_main_config_noplots : MainConfig :=
  { demo_main_config with create_plots := false }

end Main

/-- A small concrete configuration: two regions joined by one corridor. -/
def demo_config : Config :=
  { regions := ["North", "South"]
    links := [("North", "South")]
    ens_cost := 10000
    transmission_hurdle_cost := 1
    min_technical_output := [("coal", 1/2)]
    marginal_costs := [("coal", 30), ("wind", 0)] }

/-- A concrete data provider for `demo_config`: base-year corridor capacity
1000, near-horizon target 1500, full demand and scale-factor coverage, one
coal and one wind generator, and a wind profile for region South. -/
def demo_dp : DataProcessor :=
  { get_timestamps := [0, 1, 2]
    get_transmission_capacity := fun _ _ y => if y = 2020 then 1000 else 1500
    get_demand_data := fun r =>
      if r = "North" then some [5, 6, 7]
      else if r = "South" then some [3, 3, 3] else none
    get_demand_scale_factors := fun _ r =>
      if r = "North" then some 2 else if r = "South" then some 1 else none
    get_generators_data := fun _ =>
      [{ region := "North", type := "coal", capacity := 800 },
       { region := "South", type := "wind", capacity := 400 }]
    get_renewable_profile := fun r t =>
      if r = "South" ∧ t = "wind" then some [1/2, 1/3, 1/4] else none }

/-- An extensionally equal but syntactically distinct copy of `demo_dp`:
every field is eta-expanded. -/
def demo_dp_eta : DataProcessor :=
  { get_timestamps := demo_dp.get_timestamps
    get_transmission_capacity := fun r1 r2 y => demo_dp.get_transmission_capacity r1 r2 y
    get_demand_data := fun r => demo_dp.get_demand_data r
    get_demand_scale_factors := fun y r => demo_dp.get_demand_scale_factors y r
    get_generators_data := fun y => demo_dp.get_generators_data y
    get_renewable_profile := fun r t => demo_dp.get_renewable_profile r t }

/-- `demo_dp` with the demand data for region South removed. -/
def demo_dp_missing : DataProcessor :=
  { demo_dp with
    get_demand_data := fun r => if r = "North" then some [5, 6, 7] else none }

/-- A one-region configuration with a single wind generator record, used to
exercise the missing-availability-profile path. -/
def c6_config : Config :=
  { regions := ["A"], links := [], ens_cost := 1000,
    transmission_hurdle_cost := 0, min_technical_output := [], marginal_costs := [] }

/-- A data provider for `c6_config` whose `get_renewable_profile` always
returns `None`, while demand data and scale factors are fully present. -/
def c6_dp : DataProcessor :=
  { get_timestamps := [0, 1]
    get_transmission_capacity := fun _ _ _ => 0
    get_demand_data := fun _ => some [1, 2]
    get_demand_scale_factors := fun _ _ => some 1
    get_generators_data := fun _ => [{ region := "A", type := "wind", capacity := 50 }]
    get_renewable_profile := fun _ _ => none }

/-- A two-region, one-corridor configuration with no generator records, used
to inspect the stored unbounded-capacity sentinels. -/
def c8_config : Config :=
  { regions := ["A", "B"], links := [("A", "B")], ens_cost := 5000,
    transmission_hurdle_cost := 2, min_technical_output := [], marginal_costs := [] }

/-- A data provider for `c8_config`. -/
def c8_dp : DataProcessor :=
  { get_timestamps := [0]
    get_transmission_capacity := fun _ _ _ => 700
    get_demand_data := fun _ => some [4]
    get_demand_scale_factors := fun _ _ => some 1
    get_generators_data := fun _ => []
    get_renewable_profile := fun _ _ => none }

/-!
Helper lemmas.  First: decimal printing of naturals (`Nat.repr`, the
embedding of Python's `str(year)`) is injective.
-/

theorem toDigitsCore_eq_digits (b : ℕ) (hb : 2 ≤ b) :
    ∀ (f n : ℕ) (ds : List Char), 0 < n → n < b ^ f →
      Nat.toDigitsCore b f n ds = ((Nat.digits b n).map Nat.digitChar).reverse ++ ds := by
  intro f
  induction f with
  | zero =>
    intro n ds hn hlt
    simp only [pow_zero] at hlt
    omega
  | succ f ih =>
    intro n ds hn hlt
    have hb0 : 0 < b := by omega
    rw [Nat.digits_of_two_le_of_pos hb hn]
    simp only [Nat.toDigitsCore]
    by_cases hdiv : n / b = 0
    · simp [hdiv]
    · have hpos : 0 < n / b := Nat.pos_of_ne_zero hdiv
      have hlt' : n / b < b ^ f := by
        rw [Nat.div_lt_iff_lt_mul hb0]
        calc n < b ^ (f + 1) := hlt
        _ = b ^ f * b := by rw [pow_succ]
      simp only [hdiv, if_false]
      rw [ih (n / b) (Nat.digitChar (n % b) :: ds) hpos hlt']
      simp [List.reverse_cons, List.append_assoc]

theorem toDigits_eq_digits {n : ℕ} (hn : 0 < n) :
    Nat.toDigits 10 n = ((Nat.digits 10 n).map Nat.digitChar).reverse := by
  have h1 : n < 10 ^ (n + 1) :=
    lt_of_lt_of_le (Nat.lt_pow_self (by norm_num) n)
      (Nat.pow_le_pow_right (by norm_num) (Nat.le_succ n))
  rw [Nat.toDigits, toDigitsCore_eq_digits 10 (by norm_num) (n + 1) n [] hn h1,
    List.append_nil]

theorem digitChar_inj_fin : ∀ a c : Fin 10, Nat.digitChar a = Nat.digitChar c → a = c := by
  decide

theorem map_digitChar_inj : ∀ {l1 l2 : List ℕ}, (∀ d ∈ l1, d < 10) → (∀ d ∈ l2, d < 10) →
    l1.map Nat.digitChar = l2.map Nat.digitChar → l1 = l2 := by
  intro l1
  induction l1 with
  | nil =>
    intro l2 _ _ h
    cases l2 with
    | nil => rfl
    | cons b t => simp at h
  | cons a t1 ih =>
    intro l2 h1 h2 h
    cases l2 with
    | nil => simp at h
    | cons b t2 =>
      simp only [List.map_cons, List.cons.injEq] at h
      have ha : a < 10 := h1 a (by simp)
      have hb : b < 10 := h2 b (by simp)
      have hab : a = b := by
        have := digitChar_inj_fin ⟨a, ha⟩ ⟨b, hb⟩ h.1
        simpa [Fin.mk.injEq] using this
      have ht : t1 = t2 :=
        ih (fun d hd => h1 d (by simp [hd])) (fun d hd => h2 d (by simp [hd])) h.2
      rw [hab, ht]

theorem nat_repr_injective : Function.Injective Nat.repr := by
  intro m n h
  have hdata : Nat.toDigits 10 m = Nat.toDigits 10 n := by
    have := congrArg String.data h
    simpa [Nat.repr, List.asString] using this
  rcases Nat.eq_zero_or_pos m with hm | hm
  · rcases Nat.eq_zero_or_pos n with hn | hn
    · rw [hm, hn]
    · exfalso
      subst hm
      rw [toDigits_eq_digits hn] at hdata
      have hrev : (Nat.digits 10 n).map Nat.digitChar = ['0'] := by
        have := congrArg List.reverse hdata
        simpa using this.symm
      have hdig : Nat.digits 10 n = [0] := by
        cases hd : Nat.digits 10 n with
        | nil => rw [hd] at hrev; simp at hrev
        | cons d rest =>
          rw [hd] at hrev
          simp only [List.map_cons, List.cons.injEq] at hrev
          have hrest : rest = [] := List.map_eq_nil_iff.mp hrev.2
          have hdlt : d < 10 :=
            Nat.digits_lt_base (by norm_num) (by rw [hd]; simp)
          have : (⟨d, hdlt⟩ : Fin 10) = ⟨0, by norm_num⟩ :=
            digitChar_inj_fin ⟨d, hdlt⟩ ⟨0, by norm_num⟩ (by simpa using hrev.1)
          have hd0 : d = 0 := by
            have hval := congrArg Fin.val this
            simpa using hval
          rw [hrest, hd0]
      have : n = 0 := by
        have := Nat.ofDigits_digits 10 n
        rw [hdig] at this
        simpa [Nat.ofDigits] using this.symm
      omega
  · rcases Nat.eq_zero_or_pos n with hn | hn
    · exfalso
      subst hn
      rw [toDigits_eq_digits hm] at hdata
      have hrev : (Nat.digits 10 m).map Nat.digitChar = ['0'] := by
        have := congrArg List.reverse hdata
        simpa using this
      have hdig : Nat.digits 10 m = [0] := by
        cases hd : Nat.digits 10 m with
        | nil => rw [hd] at hrev; simp at hrev
        | cons d rest =>
          rw [hd] at hrev
          simp only [List.map_cons, List.cons.injEq] at hrev
          have hrest : rest = [] := List.map_eq_nil_iff.mp hrev.2
          have hdlt : d < 10 :=
            Nat.digits_lt_base (by norm_num) (by rw [hd]; simp)
          have : (⟨d, hdlt⟩ : Fin 10) = ⟨0, by norm_num⟩ :=
            digitChar_inj_fin ⟨d, hdlt⟩ ⟨0, by norm_num⟩ (by simpa using hrev.1)
          have hd0 : d = 0 := by
            have hval := congrArg Fin.val this
            simpa using hval
          rw [hrest, hd0]
      have : m = 0 := by
        have := Nat.ofDigits_digits 10 m
        rw [hdig] at this
        simpa [Nat.ofDigits] using this.symm
      omega
    · rw [toDigits_eq_digits hm, toDigits_eq_digits hn] at hdata
      have hmap : (Nat.digits 10 m).map Nat.digitChar = (Nat.digits 10 n).map Nat.digitChar :=
        List.reverse_injective hdata
      have hdig : Nat.digits 10 m = Nat.digits 10 n :=
        map_digitChar_inj
          (fun d hd => Nat.digits_lt_base (by norm_num) hd)
          (fun d hd => Nat.digits_lt_base (by norm_num) hd) hmap
      exact Nat.digits.injective 10 hdig


/-!
Helper lemmas about `_add_transmission_links`: under distinct generated link
names, the fold produces exactly the two resolved links per corridor.
-/

namespace NetworkBuilder

theorem resolve_link_name (e : Bool) (p : Option Flt) (l : Link) :
    (resolve_link e p l).name = l.name := by
  cases p with
  | none => rfl
  | some v => by_cases he : e <;> simp [resolve_link, he]

theorem set_p_nom_max_append (xs ys : List Link) (n : String) (v : Flt) :
    set_p_nom_max (xs ++ ys) n v = set_p_nom_max xs n v ++ set_p_nom_max ys n v := by
  simp [set_p_nom_max]

theorem set_p_nom_max_of_ne (n : String) (v : Flt) :
    ∀ xs : List Link, (∀ l ∈ xs, l.name ≠ n) → set_p_nom_max xs n v = xs := by
  intro xs
  induction xs with
  | nil => intro _; rfl
  | cons l t ih =>
    intro h
    have h1 : l.name ≠ n := h l (by simp)
    have h2 := ih (fun x hx => h x (by simp [hx]))
    simp only [set_p_nom_max, List.map_cons] at h2 ⊢
    rw [if_neg h1, h2]

theorem apply_p_nom_max_append (xs ys : List Link) (n : String) (e : Bool) (p : Option Flt) :
    apply_p_nom_max (xs ++ ys) n e p =
      apply_p_nom_max xs n e p ++ apply_p_nom_max ys n e p := by
  cases p with
  | none => rfl
  | some v => by_cases he : e <;> simp [apply_p_nom_max, he, set_p_nom_max_append]

theorem apply_p_nom_max_of_ne (n : String) (e : Bool) (p : Option Flt)
    (xs : List Link) (h : ∀ l ∈ xs, l.name ≠ n) :
    apply_p_nom_max xs n e p = xs := by
  cases p with
  | none => rfl
  | some v => by_cases he : e <;> simp [apply_p_nom_max, he, set_p_nom_max_of_ne n v xs h]

theorem apply_p_nom_max_singleton (l : Link) (n : String) (hn : l.name = n)
    (e : Bool) (p : Option Flt) :
    apply_p_nom_max [l] n e p = [resolve_link e p l] := by
  subst hn
  cases p with
  | none => rfl
  | some v => by_cases he : e <;> simp [apply_p_nom_max, he, set_p_nom_max, resolve_link]

theorem mem_corridor_links_name (year : ℕ) (getCap : String → String → ℕ → ℚ)
    (hurdle : ℚ) (c : String × String) (l : Link)
    (hl : l ∈ corridor_links year getCap hurdle c) :
    l.name ∈ corridor_names c := by
  simp only [corridor_links, List.mem_cons, List.mem_singleton] at hl
  rcases hl with rfl | rfl | h
  · simp [resolve_link_name, mk_link, corridor_names]
  · simp [resolve_link_name, mk_link, corridor_names]
  · simp at h

theorem add_corridor_eq (year : ℕ) (getCap : String → String → ℕ → ℚ) (hurdle : ℚ)
    (acc : List Link) (c : String × String)
    (hnd : (corridor_names c).Nodup)
    (hacc : ∀ l ∈ acc, l.name ∉ corridor_names c) :
    add_corridor year getCap hurdle acc c =
      acc ++ corridor_links year getCap hurdle c := by
  have hne : c.1 ++ "-" ++ c.2 ≠ c.2 ++ "-" ++ c.1 := by
    simpa [corridor_names] using hnd
  have hacc1 : ∀ l ∈ acc, l.name ≠ c.1 ++ "-" ++ c.2 := by
    intro l hl
    have := hacc l hl
    simp [corridor_names] at this
    exact this.1
  have hacc2 : ∀ l ∈ acc, l.name ≠ c.2 ++ "-" ++ c.1 := by
    intro l hl
    have := hacc l hl
    simp [corridor_names] at this
    exact this.2
  simp only [add_corridor, corridor_links]
  generalize transmission_policy year (getCap c.1 c.2) = pol
  obtain ⟨cap, e, p⟩ := pol
  dsimp only
  have hres : ∀ l ∈ [resolve_link e p
      (mk_link (c.1 ++ "-" ++ c.2) c.1 c.2 cap hurdle e)],
      l.name ≠ c.2 ++ "-" ++ c.1 := by
    intro l hl
    simp only [List.mem_singleton] at hl
    subst hl
    rw [resolve_link_name]
    exact hne
  simp only [apply_p_nom_max_append]
  rw [apply_p_nom_max_of_ne _ _ _ acc hacc1,
    apply_p_nom_max_singleton (mk_link (c.1 ++ "-" ++ c.2) c.1 c.2 cap hurdle e)
      (c.1 ++ "-" ++ c.2) rfl e p,
    apply_p_nom_max_of_ne _ _ _ acc hacc2,
    apply_p_nom_max_of_ne _ _ _ _ hres,
    apply_p_nom_max_singleton (mk_link (c.2 ++ "-" ++ c.1) c.2 c.1 cap hurdle e)
      (c.2 ++ "-" ++ c.1) rfl e p]
  simp

theorem foldl_add_corridor_eq (year : ℕ) (getCap : String → String → ℕ → ℚ) (hurdle : ℚ) :
    ∀ (corridors : List (String × String)) (acc : List Link),
      (corridors.flatMap corridor_names).Nodup →
      (∀ l ∈ acc, l.name ∉ corridors.flatMap corridor_names) →
      corridors.foldl (add_corridor year getCap hurdle) acc =
        acc ++ corridors.flatMap (corridor_links year getCap hurdle) := by
  intro corridors
  induction corridors with
  | nil =>
    intro acc _ _
    simp
  | cons c rest ih =>
    intro acc hnd hacc
    rw [List.flatMap_cons, List.nodup_append] at hnd
    obtain ⟨hnd1, hnd2, hdisj⟩ := hnd
    have hacc_c : ∀ l ∈ acc, l.name ∉ corridor_names c := by
      intro l hl h1
      exact hacc l hl (by rw [List.flatMap_cons]; exact List.mem_append_left _ h1)
    rw [List.foldl_cons, add_corridor_eq year getCap hurdle acc c hnd1 hacc_c,
      ih (acc ++ corridor_links year getCap hurdle c) hnd2 ?_]
    · simp [List.flatMap_cons]
    · intro l hl hmem
      rcases List.mem_append.mp hl with h | h
      · exact hacc l h (by rw [List.flatMap_cons]; exact List.mem_append_right _ hmem)
      · exact hdisj (mem_corridor_links_name year getCap hurdle c l h) hmem

theorem add_transmission_links_eq (corridors : List (String × String)) (year : ℕ)
    (getCap : String → String → ℕ → ℚ) (hurdle : ℚ)
    (h : (corridors.flatMap corridor_names).Nodup) :
    add_transmission_links corridors year getCap hurdle =
      corridors.flatMap (corridor_links year getCap hurdle) := by
  have := foldl_add_corridor_eq year getCap hurdle corridors [] h (by simp)
  simpa [add_transmission_links] using this

theorem filter_pair_eq (year : ℕ) (getCap : String → String → ℕ → ℚ) (hurdle : ℚ) :
    ∀ (corridors : List (String × String)),
      (corridors.flatMap corridor_names).Nodup →
      ∀ c ∈ corridors,
        (corridors.flatMap (corridor_links year getCap hurdle)).filter
            (fun l => decide (l.name ∈ corridor_names c)) =
          corridor_links year getCap hurdle c := by
  intro corridors
  induction corridors with
  | nil =>
    intro _ c hc
    simp at hc
  | cons c0 rest ih =>
    intro hnd c hc
    rw [List.flatMap_cons, List.nodup_append] at hnd
    obtain ⟨hnd1, hnd2, hdisj⟩ := hnd
    rw [List.flatMap_cons, List.filter_append]
    rcases List.mem_cons.mp hc with rfl | hc'
    · have h1 : (corridor_links year getCap hurdle c).filter
          (fun l => decide (l.name ∈ corridor_names c)) =
          corridor_links year getCap hurdle c := by
        rw [List.filter_eq_self]
        intro l hl
        simpa using mem_corridor_links_name year getCap hurdle c l hl
      have h2 : (rest.flatMap (corridor_links year getCap hurdle)).filter
          (fun l => decide (l.name ∈ corridor_names c)) = [] := by
        rw [List.filter_eq_nil_iff]
        intro l hl
        obtain ⟨c', hc', hl'⟩ := List.mem_flatMap.mp hl
        have hname : l.name ∈ corridor_names c' :=
          mem_corridor_links_name year getCap hurdle c' l hl'
        simp only [decide_eq_true_eq]
        intro hcn
        exact hdisj hcn (List.mem_flatMap.mpr ⟨c', hc', hname⟩)
      rw [h1, h2, List.append_nil]
    · have h1 : (corridor_links year getCap hurdle c0).filter
          (fun l => decide (l.name ∈ corridor_names c)) = [] := by
        rw [List.filter_eq_nil_iff]
        intro l hl
        have hname : l.name ∈ corridor_names c0 :=
          mem_corridor_links_name year getCap hurdle c0 l hl
        simp only [decide_eq_true_eq]
        intro hcn
        exact hdisj hname (List.mem_flatMap.mpr ⟨c, hc', hcn⟩)
      rw [h1, ih hnd2 c hc', List.nil_append]

theorem set_p_nom_max_length (xs : List Link) (n : String) (v : Flt) :
    (set_p_nom_max xs n v).length = xs.length := by
  simp [set_p_nom_max]

theorem apply_p_nom_max_length (xs : List Link) (n : String) (e : Bool) (p : Option Flt) :
    (apply_p_nom_max xs n e p).length = xs.length := by
  cases p with
  | none => rfl
  | some v => by_cases he : e <;> simp [apply_p_nom_max, he, set_p_nom_max_length]

theorem add_corridor_length (year : ℕ) (getCap : String → String → ℕ → ℚ) (hurdle : ℚ)
    (acc : List Link) (c : String × String) :
    (add_corridor year getCap hurdle acc c).length = acc.length + 2 := by
  simp only [add_corridor, apply_p_nom_max_length, List.length_append, List.length_singleton]

theorem add_transmission_links_length (corridors : List (String × String)) (year : ℕ)
    (getCap : String → String → ℕ → ℚ) (hurdle : ℚ) :
    (add_transmission_links corridors year getCap hurdle).length = 2 * corridors.length := by
  suffices h : ∀ (cs : List (String × String)) (acc : List Link),
      (cs.foldl (add_corridor year getCap hurdle) acc).length = acc.length + 2 * cs.length by
    simpa [add_transmission_links] using h corridors []
  intro cs
  induction cs with
  | nil => intro acc; simp
  | cons c rest ih =>
    intro acc
    rw [List.foldl_cons, ih, add_corridor_length]
    simp only [List.length_cons]
    omega

theorem mem_apply_p_nom_max_inf (xs : List Link) (n : String) (e : Bool)
    (h : ∀ l ∈ xs, l.p_nom_max = Flt.inf) :
    ∀ l ∈ apply_p_nom_max xs n e (some Flt.inf), l.p_nom_max = Flt.inf := by
  by_cases he : e
  · intro l hl
    simp only [apply_p_nom_max, he, if_true, set_p_nom_max] at hl
    obtain ⟨x, hx, rfl⟩ := List.mem_map.mp hl
    by_cases hn : x.name = n
    · simp [hn]
    · simp only [if_neg hn]
      exact h x hx
  · simp only [apply_p_nom_max, he, if_false]
    exact h

theorem far_year_p_nom_max (year : ℕ) (h20 : year ≠ 2020) (h30 : year ≠ 2030)
    (corridors : List (String × String)) (getCap : String → String → ℕ → ℚ) (hurdle : ℚ) :
    ∀ l ∈ add_transmission_links corridors year getCap hurdle, l.p_nom_max = Flt.inf := by
  have hpol : ∀ q : ℕ → ℚ, transmission_policy year q = (q 2020, true, some Flt.inf) := by
    intro q
    simp [transmission_policy, h20, h30]
  suffices h : ∀ (cs : List (String × String)) (acc : List Link),
      (∀ l ∈ acc, l.p_nom_max = Flt.inf) →
      ∀ l ∈ cs.foldl (add_corridor year getCap hurdle) acc, l.p_nom_max = Flt.inf by
    exact h corridors [] (by simp)
  intro cs
  induction cs with
  | nil =>
    intro acc hacc
    simpa using hacc
  | cons c rest ih =>
    intro acc hacc
    rw [List.foldl_cons]
    apply ih
    intro l hl
    simp only [add_corridor, hpol] at hl
    have step1 : ∀ x ∈ acc ++ [mk_link (c.1 ++ "-" ++ c.2) c.1 c.2
        (getCap c.1 c.2 2020) hurdle true], x.p_nom_max = Flt.inf := by
      intro x hx
      rcases List.mem_append.mp hx with h | h
      · exact hacc x h
      · simp only [List.mem_singleton] at h
        subst h
        rfl
    have step2 := mem_apply_p_nom_max_inf _ (c.1 ++ "-" ++ c.2) true step1
    have step3 : ∀ x ∈ apply_p_nom_max (acc ++ [mk_link (c.1 ++ "-" ++ c.2) c.1 c.2
        (getCap c.1 c.2 2020) hurdle true]) (c.1 ++ "-" ++ c.2) true (some Flt.inf)
        ++ [mk_link (c.2 ++ "-" ++ c.1) c.2 c.1 (getCap c.1 c.2 2020) hurdle true],
        x.p_nom_max = Flt.inf := by
      intro x hx
      rcases List.mem_append.mp hx with h | h
      · exact step2 x h
      · simp only [List.mem_singleton] at h
        subst h
        rfl
    exact mem_apply_p_nom_max_inf _ (c.2 ++ "-" ++ c.1) true step3 l hl

end NetworkBuilder

/-!
Helper lemmas about `_add_loads` and the ENS generators.
-/

namespace NetworkBuilder

theorem add_loads_bus (load_data : String → Option (List ℚ))
    (scale_factors : String → Option ℚ) :
    ∀ (regions : List String), ∀ l ∈ (add_loads regions load_data scale_factors).1,
      l.bus ∈ regions := by
  intro regions
  induction regions with
  | nil =>
    intro l hl
    simp [add_loads] at hl
  | cons r0 rest ih =>
    intro l hl
    rw [add_loads] at hl
    rcases h1 : load_data r0 with _ | series
    · rw [h1] at hl
      exact List.mem_cons_of_mem _ (ih l hl)
    · rcases h2 : scale_factors r0 with _ | factor
      · rw [h1, h2] at hl
        exact List.mem_cons_of_mem _ (ih l hl)
      · rw [h1, h2] at hl
        rcases List.mem_cons.mp hl with rfl | hl'
        · simp
        · exact List.mem_cons_of_mem _ (ih l hl')

theorem add_loads_filter_present (load_data : String → Option (List ℚ))
    (scale_factors : String → Option ℚ) :
    ∀ (regions : List String) (r : String), regions.Nodup → r ∈ regions →
      ∀ (series : List ℚ) (factor : ℚ),
        load_data r = some series → scale_factors r = some factor →
        (add_loads regions load_data scale_factors).1.filter
            (fun l => decide (l.bus = r)) =
          [{ name := r ++ "-load", bus := r,
             p_set := series.map (fun x => x * factor) }] := by
  intro regions
  induction regions with
  | nil =>
    intro r _ hr
    simp at hr
  | cons r0 rest ih =>
    intro r hnd hr series factor hld hsf
    have hnd0 : r0 ∉ rest := (List.nodup_cons.mp hnd).1
    have hndr : rest.Nodup := (List.nodup_cons.mp hnd).2
    rcases List.mem_cons.mp hr with rfl | hr'
    · rw [add_loads, hld, hsf]
      have htail : (add_loads rest load_data scale_factors).1.filter
          (fun l => decide (l.bus = r)) = [] := by
        rw [List.filter_eq_nil_iff]
        intro l hl
        have := add_loads_bus load_data scale_factors rest l hl
        simp only [decide_eq_true_eq]
        intro hb
        rw [hb] at this
        exact hnd0 this
      simp only [List.filter_cons, decide_eq_true_eq]
      simp [htail]
    · have hne : r ≠ r0 := fun h => hnd0 (h ▸ hr')
      rw [add_loads]
      rcases h1 : load_data r0 with _ | series0
      · exact ih r hndr hr' series factor hld hsf
      · rcases h2 : scale_factors r0 with _ | factor0
        · exact ih r hndr hr' series factor hld hsf
        · simp only [List.filter_cons, decide_eq_true_eq]
          rw [if_neg (by simp [hne.symm])]
          exact ih r hndr hr' series factor hld hsf

theorem add_loads_filter_missing (load_data : String → Option (List ℚ))
    (scale_factors : String → Option ℚ) :
    ∀ (regions : List String) (r : String), regions.Nodup → r ∈ regions →
      (load_data r = none ∨ scale_factors r = none) →
      (add_loads regions load_data scale_factors).1.filter
          (fun l => decide (l.bus = r)) = [] ∧
      ("Region " ++ r ++ " is missing load data or scaling factor")
        ∈ (add_loads regions load_data scale_factors).2 := by
  intro regions
  induction regions with
  | nil =>
    intro r _ hr
    simp at hr
  | cons r0 rest ih =>
    intro r hnd hr hmiss
    have hnd0 : r0 ∉ rest := (List.nodup_cons.mp hnd).1
    have hndr : rest.Nodup := (List.nodup_cons.mp hnd).2
    rcases List.mem_cons.mp hr with rfl | hr'
    · have htail : (add_loads rest load_data scale_factors).1.filter
          (fun l => decide (l.bus = r)) = [] := by
        rw [List.filter_eq_nil_iff]
        intro l hl
        have := add_loads_bus load_data scale_factors rest l hl
        simp only [decide_eq_true_eq]
        intro hb
        rw [hb] at this
        exact hnd0 this
      rcases hmiss with hld | hsf
      · rw [add_loads, hld]
        exact ⟨htail, by simp⟩
      · rw [add_loads]
        rcases h1 : load_data r with _ | series
        · exact ⟨htail, by simp⟩
        · rw [hsf]
          exact ⟨htail, by simp⟩
    · have hne : r ≠ r0 := fun h => hnd0 (h ▸ hr')
      have hrec := ih r hndr hr' hmiss
      rw [add_loads]
      rcases h1 : load_data r0 with _ | series0
      · exact ⟨hrec.1, List.mem_cons_of_mem _ hrec.2⟩
      · rcases h2 : scale_factors r0 with _ | factor0
        · exact ⟨hrec.1, List.mem_cons_of_mem _ hrec.2⟩
        · constructor
          · simp only [List.filter_cons, decide_eq_true_eq]
            rw [if_neg (by simp [hne.symm])]
            exact hrec.1
          · exact hrec.2

theorem filter_ens (ens_cost : ℚ) :
    ∀ (regions : List String) (r : String), regions.Nodup → r ∈ regions →
      (add_ens_generators regions ens_cost).filter
          (fun g => decide (g.bus = r ∧ g.carrier = "ENS")) =
        [{ name := r ++ "-ENS", bus := r, carrier := "ENS", p_nom := Flt.inf,
           marginal_cost := ens_cost, p_min_pu := 0, p_max_pu := 1,
           p_max_pu_t := none }] := by
  intro regions
  induction regions with
  | nil =>
    intro r _ hr
    simp at hr
  | cons r0 rest ih =>
    intro r hnd hr
    have hnd0 : r0 ∉ rest := (List.nodup_cons.mp hnd).1
    have hndr : rest.Nodup := (List.nodup_cons.mp hnd).2
    rw [show add_ens_generators (r0 :: rest) ens_cost =
      ({ name := r0 ++ "-ENS", bus := r0, carrier := "ENS", p_nom := Flt.inf,
         marginal_cost := ens_cost, p_min_pu := 0, p_max_pu := 1,
         p_max_pu_t := none } : Generator) :: add_ens_generators rest ens_cost from rfl]
    rcases List.mem_cons.mp hr with rfl | hr'
    · have htail : ((add_ens_generators rest ens_cost).filter
          (fun g => decide (g.bus = r ∧ g.carrier = "ENS"))) = [] := by
        rw [List.filter_eq_nil_iff]
        intro g hg
        obtain ⟨r', hr', rfl⟩ := List.mem_map.mp hg
        simp only [decide_eq_true_eq, not_and]
        intro hb
        exact absurd (hb ▸ hr') hnd0
      rw [List.filter_cons_of_pos (by simp), htail]
    · have hne : r ≠ r0 := fun h => hnd0 (h ▸ hr')
      simp only [List.filter_cons, decide_eq_true_eq]
      rw [if_neg (by simp [hne.symm])]
      exact ih r hndr hr'

theorem filter_ens_of_gens (min_output marginal_costs : List (String × ℚ))
    (get_profile : String → String → Option (List ℚ)) (r : String) :
    ∀ gens : List GenRecord, (∀ g ∈ gens, g.type ≠ "ENS") →
      (add_generators gens min_output marginal_costs get_profile).filter
          (fun g => decide (g.bus = r ∧ g.carrier = "ENS")) = [] := by
  intro gens hgens
  rw [List.filter_eq_nil_iff]
  intro g hg
  obtain ⟨rec, hrec, rfl⟩ := List.mem_map.mp hg
  simp only [decide_eq_true_eq, not_and]
  intro _
  exact hgens rec hrec

end NetworkBuilder

/-!
Helper lemmas about `main.py`: which directories `setup_directories` creates
and how the per-year result writes behave.
-/

namespace Main

theorem mem_mkdir_dirs (fs : FS) (d x : String) :
    x ∈ (mkdir fs d).dirs ↔ x ∈ fs.dirs ∨ x = d := by
  by_cases h : d ∈ fs.dirs
  · simp only [mkdir, if_pos h]
    constructor
    · exact Or.inl
    · rintro (hx | rfl)
      · exact hx
      · exact h
  · simp [mkdir, if_neg h]

theorem mem_setup_directories (config : MainConfig) (x : String) :
    x ∈ (setup_directories config).dirs ↔
      x = config.output_dir ∨ ∃ y ∈ config.model_years, x = year_dir config.output_dir y := by
  suffices h : ∀ (ys : List ℕ) (fs : FS),
      (x ∈ (ys.foldl (fun acc year => mkdir acc (year_dir config.output_dir year)) fs).dirs ↔
        x ∈ fs.dirs ∨ ∃ y ∈ ys, x = year_dir config.output_dir y) by
    rw [setup_directories, h]
    rw [mem_mkdir_dirs]
    simp [or_comm]
  intro ys
  induction ys with
  | nil => intro fs; simp
  | cons y0 rest ih =>
    intro fs
    rw [List.foldl_cons, ih, mem_mkdir_dirs]
    constructor
    · rintro (⟨hx | rfl⟩ | ⟨y, hy, rfl⟩)
      · exact Or.inl hx
      · exact Or.inr ⟨y0, by simp⟩
      · exact Or.inr ⟨y, by simp [hy]⟩
    · rintro (hx | ⟨y, hy, rfl⟩)
      · exact Or.inl (Or.inl hx)
      · rcases List.mem_cons.mp hy with rfl | hy'
        · exact Or.inl (Or.inr rfl)
        · exact Or.inr ⟨y, hy', rfl⟩

theorem year_dir_ne_output (out : String) (y : ℕ) : year_dir out y ≠ out := by
  intro h
  have hlen := congrArg String.length h
  rw [year_dir] at hlen
  simp only [String.length_append] at hlen
  have : ("/" : String).length = 1 := rfl
  omega

theorem year_dir_inj (out : String) (y1 y2 : ℕ)
    (h : year_dir out y1 = year_dir out y2) : y1 = y2 := by
  rw [year_dir, year_dir] at h
  have hdata := congrArg String.data h
  simp only [String.data_append] at hdata
  have hrepr : (Nat.repr y1).data = (Nat.repr y2).data :=
    List.append_cancel_left hdata
  exact nat_repr_injective (String.ext hrepr)

theorem year_dir_not_mem_setup (config : MainConfig) (y : ℕ)
    (hy : y ∉ config.model_years) :
    year_dir config.output_dir y ∉ (setup_directories config).dirs := by
  rw [mem_setup_directories]
  rintro (h | ⟨y', hy', h⟩)
  · exact year_dir_ne_output config.output_dir y h
  · exact hy (year_dir_inj config.output_dir y y' h ▸ hy')

theorem write_file_ok_dirs (fs : FS) (d f : String) (fs' : FS)
    (h : write_file fs d f = Except.ok fs') : fs'.dirs = fs.dirs := by
  by_cases hd : d ∈ fs.dirs
  · rw [write_file, if_pos hd] at h
    cases h
    rfl
  · rw [write_file, if_neg hd] at h
    cases h

theorem save_year_results_dirs (config : MainConfig) (fs : FS) (year : ℕ) (fs' : FS)
    (h : save_year_results config fs year = Except.ok fs') : fs'.dirs = fs.dirs := by
  rw [save_year_results] at h
  by_cases hs : config.save_networks
  · rw [if_pos hs] at h
    rcases hw : write_file fs (year_dir config.output_dir year)
        ("network_" ++ Nat.repr year ++ ".nc") with _ | fs1
    · rw [hw] at h
      cases h
    · rw [hw] at h
      have h1 := write_file_ok_dirs _ _ _ _ hw
      have h2 := write_file_ok_dirs _ _ _ _ h
      rw [h2, h1]
  · rw [if_neg hs] at h
    exact write_file_ok_dirs _ _ _ _ h

theorem save_year_results_error (config : MainConfig) (fs : FS) (year : ℕ)
    (h : year_dir config.output_dir year ∉ fs.dirs) :
    save_year_results config fs year =
      Except.error ("No such directory: " ++ year_dir config.output_dir year) := by
  rw [save_year_results]
  by_cases hs : config.save_networks
  · simp only [if_pos hs, write_file, if_neg h]
  · simp only [if_neg hs, write_file, if_neg h]

theorem run_years_error (config : MainConfig) :
    ∀ (ys : List ℕ) (fs : FS) (y : ℕ), y ∈ ys →
      year_dir config.output_dir y ∉ fs.dirs →
      ∃ e, run_years config fs ys = Except.error e := by
  intro ys
  induction ys with
  | nil =>
    intro fs y hy
    simp at hy
  | cons y0 rest ih =>
    intro fs y hy hdir
    rcases hsave : save_year_results config fs y0 with e | fs1
    · exact ⟨e, by rw [run_years, hsave]⟩
    · have hdirs := save_year_results_dirs config fs y0 fs1 hsave
      rcases List.mem_cons.mp hy with rfl | hy'
      · rw [save_year_results_error config fs y hdir] at hsave
        cases hsave
      · obtain ⟨e, he⟩ := ih fs1 y hy' (by rw [hdirs]; exact hdir)
        refine ⟨e, ?_⟩
        rw [run_years, hsave]
        exact he

end Main

/-!
Claim theorems.
-/

/-- Claim C1 (evidence of the code bug): for a planning year that matches no
policy tier — e.g. 2040, which is none of 2020/2030/2050 — the year-tier
branch of `_add_transmission_links` does not fail; it silently falls into the
final `else` branch (commented `# 2050` in the source) and applies the
far-horizon policy (sizing from the 2020 capacity, extendable, unbounded
`p_nom_max`), so whole-network assembly at 2040 equals assembly at 2050. -/
theorem c1_unmatched_year_silently_defaults :
    (∀ getCap : ℕ → ℚ, NetworkBuilder.transmission_policy 2040 getCap =
        (getCap 2020, true, some Flt.inf)) ∧
    NetworkBuilder.transmission_policy 2040 = NetworkBuilder.transmission_policy 2050 ∧
    NetworkBuilder.create_network demo_config 2040 demo_dp =
      NetworkBuilder.create_network demo_config 2050 demo_dp := by
  refine ⟨?_, ?_, rfl⟩
  · intro getCap
    simp [NetworkBuilder.transmission_policy]
  · funext getCap
    simp [NetworkBuilder.transmission_policy]

/-- Claim C7: network building is deterministic — two invocations of
`create_network` with the same configuration and year, on data providers all
of whose outputs agree pointwise, produce identical networks (same entity
lists and parameters on every entity). -/
theorem c7_create_network_deterministic (config : Config) (year : ℕ)
    (dp1 dp2 : DataProcessor)
    (hts : dp1.get_timestamps = dp2.get_timestamps)
    (hcap : ∀ r1 r2 y, dp1.get_transmission_capacity r1 r2 y =
      dp2.get_transmission_capacity r1 r2 y)
    (hdem : ∀ r, dp1.get_demand_data r = dp2.get_demand_data r)
    (hsf : ∀ y r, dp1.get_demand_scale_factors y r = dp2.get_demand_scale_factors y r)
    (hgen : ∀ y, dp1.get_generators_data y = dp2.get_generators_data y)
    (hpro : ∀ r t, dp1.get_renewable_profile r t = dp2.get_renewable_profile r t) :
    NetworkBuilder.create_network config year dp1 =
      NetworkBuilder.create_network config year dp2 := by
  obtain ⟨ts1, cap1, dem1, sf1, gen1, pro1⟩ := dp1
  obtain ⟨ts2, cap2, dem2, sf2, gen2, pro2⟩ := dp2
  have h1 : ts1 = ts2 := hts
  have h2 : cap1 = cap2 := funext fun a => funext fun b => funext fun c => hcap a b c
  have h3 : dem1 = dem2 := funext hdem
  have h4 : sf1 = sf2 := funext fun a => funext fun b => hsf a b
  have h5 : gen1 = gen2 := funext hgen
  have h6 : pro1 = pro2 := funext fun a => funext fun b => hpro a b
  rw [h1, h2, h3, h4, h5, h6]

/-- Witness for C7: `demo_dp_eta` is a syntactically different, pointwise
equal data provider, and the resulting networks coincide. -/
theorem c7_witness :
    NetworkBuilder.create_network demo_config 2030 demo_dp =
      NetworkBuilder.create_network demo_config 2030 demo_dp_eta :=
  c7_create_network_deterministic demo_config 2030 demo_dp demo_dp_eta rfl
    (fun _ _ _ => rfl) (fun _ => rfl) (fun _ _ => rfl) (fun _ => rfl) (fun _ _ => rfl)

/-- Claim C9: a year passed by the `--years` override that is not among the
configured model years gets no per-year output subdirectory from
`setup_directories` (directories are created only for configured years), so
the per-year result-writing step — in particular the write of `lole_year.csv`
into `output_dir/str(year)` — fails for that year, and the whole workflow
run errors out. -/
theorem c9_unconfigured_year_write_fails (config : Main.MainConfig)
    (ys : List ℕ) (y : ℕ)
    (hy : y ∉ config.model_years) (hmem : y ∈ ys) :
    Main.year_dir config.output_dir y ∉ (Main.setup_directories config).dirs ∧
    (∀ fs : Main.FS, fs.dirs = (Main.setup_directories config).dirs →
      Main.save_year_results config fs y =
        Except.error ("No such directory: " ++ Main.year_dir config.output_dir y)) ∧
    ∃ e, Main.run_workflow config (some ys) = Except.error e := by
  have hnot := Main.year_dir_not_mem_setup config y hy
  refine ⟨hnot, ?_, ?_⟩
  · intro fs hfs
    exact Main.save_year_results_error config fs y (by rw [hfs]; exact hnot)
  · obtain ⟨e, he⟩ := Main.run_years_error config ys (Main.setup_directories config) y hmem hnot
    refine ⟨e, ?_⟩
    simp only [Main.run_workflow, Main.resolve_years]
    rw [he]

/-- Witness for C9: with the shipped years `[2020, 2030, 2050]`, the
override `--years 2040` finds no `results/2040` directory and the write
step for 2040 fails. -/
theorem c9_witness :
    Main.year_dir "results" 2040 ∉ (Main.setup_directories Main.demo_main_config).dirs ∧
    (∀ fs : Main.FS, fs.dirs = (Main.setup_directories Main.demo_main_config).dirs →
      Main.save_year_results Main.demo_main_config fs 2040 =
        Except.error ("No such directory: " ++ Main.year_dir "results" 2040)) ∧
    ∃ e, Main.run_workflow Main.demo_main_config (some [2040]) = Except.error e :=
  c9_unconfigured_year_write_fails Main.demo_main_config [2040] 2040 (by decide) (by decide)

/-- Claim C10: with `create_report` enabled, `run_workflow`'s report step
references the local `visualizer`, which is bound only inside the
`create_plots` branch; with `create_plots` disabled the reference raises a
`NameError` (Python `UnboundLocalError`), and with `create_plots` enabled
the report step finds the visualizer defined. -/
theorem c10_report_requires_plots (config : Main.MainConfig)
    (hr : config.create_report = true) :
    (config.create_plots = false →
      Main.finalize_workflow config =
        Except.error "NameError: name visualizer is not defined") ∧
    (config.create_plots = true → Main.finalize_workflow config = Except.ok ()) ∧
    (config.create_plots = false → ∀ (arg_years : Option (List ℕ)) (fs1 : Main.FS),
      Main.run_years config (Main.setup_directories config)
          (Main.resolve_years config arg_years) = Except.ok fs1 →
      Main.run_workflow config arg_years =
        Except.error "NameError: name visualizer is not defined") := by
  refine ⟨?_, ?_, ?_⟩
  · intro hp
    simp [Main.finalize_workflow, hp, hr]
  · intro hp
    simp [Main.finalize_workflow, hp, hr]
  · intro hp arg_years fs1 hrun
    have hfin : Main.finalize_workflow config =
        Except.error "NameError: name visualizer is not defined" := by
      simp [Main.finalize_workflow, hp, hr]
    simp only [Main.run_workflow, hrun, hfin]

/-- Witness for C10: with report enabled, disabling plots makes the report
step fail with the `NameError`, while enabling plots makes it succeed. -/
theorem c10_witness :
    (Main.finalize_workflow Main.demo_main_config_noplots =
      Except.error "NameError: name visualizer is not defined") ∧
    (Main.finalize_workflow Main.demo_main_config = Except.ok ()) :=
  ⟨(c10_report_requires_plots Main.demo_main_config_noplots rfl).1 rfl,
   (c10_report_requires_plots Main.demo_main_config rfl).2.1 rfl⟩

/-- Claim C4: after assembly, every configured region has exactly one ENS
(unserved-energy) generator — the list of generators on that region's bus
with carrier "ENS" is exactly one record — with unbounded (`float("inf")`)
nominal capacity, minimum per-unit output 0, maximum per-unit output 1, and
marginal cost equal to the configured `ens_cost`; this holds regardless of
which other generator records the data provider supplies (hypothesis: no
supplied record uses the reserved technology name "ENS", and the configured
region list has no duplicates). -/
theorem c4_one_ens_generator_per_region (config : Config) (year : ℕ)
    (dp : DataProcessor) (hnd : config.regions.Nodup)
    (hens : ∀ g ∈ dp.get_generators_data year, g.type ≠ "ENS")
    (r : String) (hr : r ∈ config.regions) :
    (NetworkBuilder.create_network config year dp).generators.filter
        (fun g => decide (g.bus = r ∧ g.carrier = "ENS")) =
      [{ name := r ++ "-ENS", bus := r, carrier := "ENS", p_nom := Flt.inf,
         marginal_cost := config.ens_cost, p_min_pu := 0, p_max_pu := 1,
         p_max_pu_t := none }] := by
  simp only [NetworkBuilder.create_network]
  rw [List.filter_append,
    NetworkBuilder.filter_ens_of_gens config.min_technical_output config.marginal_costs
      dp.get_renewable_profile r (dp.get_generators_data year) hens,
    NetworkBuilder.filter_ens config.ens_cost config.regions r hnd hr,
    List.nil_append]

/-- Witness for C4 at a concrete input: region South of the demo model,
which also has a wind generator. -/
theorem c4_witness :
    (NetworkBuilder.create_network demo_config 2020 demo_dp).generators.filter
        (fun g => decide (g.bus = "South" ∧ g.carrier = "ENS")) =
      [{ name := "South" ++ "-ENS", bus := "South", carrier := "ENS", p_nom := Flt.inf,
         marginal_cost := 10000, p_min_pu := 0, p_max_pu := 1,
         p_max_pu_t := none }] :=
  c4_one_ens_generator_per_region demo_config 2020 demo_dp (by decide) (by decide)
    "South" (by decide)

/-- Claim C5: for a configured region present in both the demand data and
the year's scale factors, assembly attaches exactly one Load — its series
the raw demand multiplied elementwise by the scale factor; for a configured
region missing either input no Load is created, the warning is logged, and
assembly continues (the other regions are unaffected, as the same theorem
applied to them shows). -/
theorem c5_loads_scaled_or_skipped (config : Config) (year : ℕ)
    (dp : DataProcessor) (hnd : config.regions.Nodup)
    (r : String) (hr : r ∈ config.regions) :
    (∀ (series : List ℚ) (factor : ℚ),
      dp.get_demand_data r = some series →
      dp.get_demand_scale_factors year r = some factor →
      (NetworkBuilder.create_network config year dp).loads.filter
          (fun l => decide (l.bus = r)) =
        [{ name := r ++ "-load", bus := r,
           p_set := series.map (fun x => x * factor) }]) ∧
    ((dp.get_demand_data r = none ∨ dp.get_demand_scale_factors year r = none) →
      (NetworkBuilder.create_network config year dp).loads.filter
          (fun l => decide (l.bus = r)) = [] ∧
      ("Region " ++ r ++ " is missing load data or scaling factor")
        ∈ (NetworkBuilder.create_network config year dp).warnings) := by
  constructor
  · intro series factor hld hsf
    simp only [NetworkBuilder.create_network]
    exact NetworkBuilder.add_loads_filter_present dp.get_demand_data
      (dp.get_demand_scale_factors year) config.regions r hnd hr series factor hld hsf
  · intro hmiss
    have h := NetworkBuilder.add_loads_filter_missing dp.get_demand_data
      (dp.get_demand_scale_factors year) config.regions r hnd hr hmiss
    simp only [NetworkBuilder.create_network]
    exact h

/-- Witness for C5: with South's demand data removed, South gets no Load and
the warning is recorded, while North still gets its scaled Load. -/
theorem c5_witness :
    ((NetworkBuilder.create_network demo_config 2030 demo_dp_missing).loads.filter
        (fun l => decide (l.bus = "South")) = [] ∧
      ("Region " ++ "South" ++ " is missing load data or scaling factor")
        ∈ (NetworkBuilder.create_network demo_config 2030 demo_dp_missing).warnings) ∧
    (NetworkBuilder.create_network demo_config 2030 demo_dp_missing).loads.filter
        (fun l => decide (l.bus = "North")) =
      [{ name := "North" ++ "-load", bus := "North",
         p_set := [5, 6, 7].map (fun x => x * 2) }] :=
  ⟨(c5_loads_scaled_or_skipped demo_config 2030 demo_dp_missing (by decide)
      "South" (by decide)).2 (Or.inl rfl),
   (c5_loads_scaled_or_skipped demo_config 2030 demo_dp_missing (by decide)
      "North" (by decide)).1 [5, 6, 7] 2 rfl rfl⟩

/-- Counterexample to claim C6 as stated: in a concrete assembly with one
wind generator whose availability profile is absent, the flat bound 1.0 is
kept and assembly completes — but no warning whatsoever is logged (the
builder's warning log is empty), refuting the claim's "a gap is logged":
the profile-absent branch of `_add_generators` (network.py lines 169-172)
has no logging statement. -/
theorem c6_counterexample :
    (NetworkBuilder.create_network c6_config 2020 c6_dp).generators.map
        (fun g => (g.name, g.p_max_pu, g.p_max_pu_t)) =
      [("A-wind", 1, none), ("A-ENS", 1, none)] ∧
    (NetworkBuilder.create_network c6_config 2020 c6_dp).warnings = [] := by
  constructor
  · decide
  · decide

/-- Claim C6 as amended: for every generator record with technology in
{wind, solar, hydro}, assembly fetches the availability profile for
(region, technology) and stores it as the per-time-step maximum-output
override when present; when absent the flat bound 1.0 stays and assembly
continues — but no gap warning is logged by the builder (its warning log
does not depend on the profile data at all). -/
theorem c6_renewable_profile_override (config : Config) (year : ℕ)
    (dp : DataProcessor) (g : GenRecord) (hg : g ∈ dp.get_generators_data year)
    (htech : g.type ∈ (["wind", "solar", "hydro"] : List String)) :
    NetworkBuilder.mk_generator config.min_technical_output config.marginal_costs
        dp.get_renewable_profile g ∈
      (NetworkBuilder.create_network config year dp).generators ∧
    (NetworkBuilder.mk_generator config.min_technical_output config.marginal_costs
        dp.get_renewable_profile g).p_max_pu = 1 ∧
    (NetworkBuilder.mk_generator config.min_technical_output config.marginal_costs
        dp.get_renewable_profile g).p_max_pu_t =
      dp.get_renewable_profile g.region g.type ∧
    (∀ profile_fn : String → String → Option (List ℚ),
      (NetworkBuilder.create_network config year
          { dp with get_renewable_profile := profile_fn }).warnings =
        (NetworkBuilder.create_network config year dp).warnings) := by
  refine ⟨?_, rfl, ?_, ?_⟩
  · simp only [NetworkBuilder.create_network]
    apply List.mem_append_left
    simp only [NetworkBuilder.add_generators]
    exact List.mem_map.mpr ⟨g, hg, rfl⟩
  · simp [NetworkBuilder.mk_generator, htech]
  · intro profile_fn
    rfl

/-- Witness for the amended C6: the wind generator of the one-region model,
whose profile is absent — the stored override is `none`, the flat bound is
1, and swapping in a different profile function leaves the warning log
unchanged. -/
theorem c6_witness :
    NetworkBuilder.mk_generator c6_config.min_technical_output c6_config.marginal_costs
        c6_dp.get_renewable_profile { region := "A", type := "wind", capacity := 50 } ∈
      (NetworkBuilder.create_network c6_config 2020 c6_dp).generators ∧
    (NetworkBuilder.mk_generator c6_config.min_technical_output c6_config.marginal_costs
        c6_dp.get_renewable_profile
        { region := "A", type := "wind", capacity := 50 }).p_max_pu = 1 ∧
    (NetworkBuilder.mk_generator c6_config.min_technical_output c6_config.marginal_costs
        c6_dp.get_renewable_profile
        { region := "A", type := "wind", capacity := 50 }).p_max_pu_t = none ∧
    (NetworkBuilder.create_network c6_config 2020
        { c6_dp with get_renewable_profile := fun _ _ => some [1, 1] }).warnings =
      (NetworkBuilder.create_network c6_config 2020 c6_dp).warnings := by
  obtain ⟨h1, h2, h3, h4⟩ := c6_renewable_profile_override c6_config 2020 c6_dp
    { region := "A", type := "wind", capacity := 50 } (by decide) (by decide)
  exact ⟨h1, h2, h3, h4 (fun _ _ => some [1, 1])⟩

/-- Counterexample to claim C8 as stated: in a concrete far-horizon (2050)
assembly, the transmission links' capacity upper bounds and the ENS
generators' nominal capacities are stored as `Flt.inf` — the embedded
literal numeric infinity `float("inf")` sitting in the ordinary numeric
fields `p_nom_max` and `p_nom` (network.py lines 87 and 183) — not as a
separate non-numeric "unbounded" case. -/
theorem c8_counterexample :
    (NetworkBuilder.create_network c8_config 2050 c8_dp).generators.map
        Generator.p_nom = [Flt.inf, Flt.inf] ∧
    (NetworkBuilder.create_network c8_config 2050 c8_dp).links.map
        Link.p_nom_max = [Flt.inf, Flt.inf] := by
  constructor
  · decide
  · decide

/-- Claim C8 as amended: the unbounded sentinels are represented as the
float infinity `float("inf")` stored in the numeric capacity fields — every
region's ENS generator carries `p_nom = Flt.inf`, and in any far-horizon
year (any year other than 2020 and 2030) every transmission link carries
`p_nom_max = Flt.inf`. -/
theorem c8_infinity_sentinels (config : Config) (year : ℕ) (dp : DataProcessor) :
    (∀ r ∈ config.regions,
      ∃ g ∈ (NetworkBuilder.create_network config year dp).generators,
        g.name = r ++ "-ENS" ∧ g.carrier = "ENS" ∧ g.p_nom = Flt.inf) ∧
    (year ≠ 2020 → year ≠ 2030 →
      ∀ l ∈ (NetworkBuilder.create_network config year dp).links,
        l.p_nom_max = Flt.inf) := by
  constructor
  · intro r hr
    have hmem : ({ name := r ++ "-ENS", bus := r, carrier := "ENS", p_nom := Flt.inf, marginal_cost := config.ens_cost, p_min_pu := 0, p_max_pu := 1, p_max_pu_t := none } : Generator) ∈
        (NetworkBuilder.create_network config year dp).generators := by
      simp only [NetworkBuilder.create_network]
      apply List.mem_append_right
      simp only [NetworkBuilder.add_ens_generators]
      exact List.mem_map.mpr ⟨r, hr, rfl⟩
    exact ⟨_, hmem, rfl, rfl, rfl⟩
  · intro h20 h30 l hl
    simp only [NetworkBuilder.create_network] at hl
    exact NetworkBuilder.far_year_p_nom_max year h20 h30 config.links
      dp.get_transmission_capacity config.transmission_hurdle_cost l hl

/-- Witness for the amended C8 at the concrete 2050 model. -/
theorem c8_witness :
    (∀ r ∈ c8_config.regions,
      ∃ g ∈ (NetworkBuilder.create_network c8_config 2050 c8_dp).generators,
        g.name = r ++ "-ENS" ∧ g.carrier = "ENS" ∧ g.p_nom = Flt.inf) ∧
    (∀ l ∈ (NetworkBuilder.create_network c8_config 2050 c8_dp).links,
      l.p_nom_max = Flt.inf) :=
  ⟨(c8_infinity_sentinels c8_config 2050 c8_dp).1,
   (c8_infinity_sentinels c8_config 2050 c8_dp).2 (by decide) (by decide)⟩

/-- Claim C2: for every configured corridor and each policy-tier year, both
of its directed links carry — 2020: sizing capacity equal to that year's
realized capacity, `extendable = false`, and no capacity upper bound (the
PyPSA default `p_nom_max = inf` is left untouched); 2030: sizing capacity
equal to the 2020 capacity, `extendable = true`, and `p_nom_max` equal to
the 2030 target capacity (which may equal the 2020 capacity — the statement
places no constraint ruling out that boundary case); 2050: sizing capacity
equal to the 2020 capacity, `extendable = true`, and an unbounded
`p_nom_max`.  Hypothesis: the generated link names are pairwise distinct. -/
theorem c2_capacity_expansion_policy (config : Config) (dp : DataProcessor)
    (hnd : (config.links.flatMap NetworkBuilder.corridor_names).Nodup)
    (c : String × String) (hc : c ∈ config.links) :
    ((NetworkBuilder.create_network config 2020 dp).links.filter
        (fun l => decide (l.name ∈ NetworkBuilder.corridor_names c)) =
      [{ name := c.1 ++ "-" ++ c.2, bus0 := c.1, bus1 := c.2,
         p_nom := Flt.val (dp.get_transmission_capacity c.1 c.2 2020),
         p_min_pu := -1, p_max_pu := 1,
         marginal_cost := config.transmission_hurdle_cost,
         p_nom_extendable := false, p_nom_max := Flt.inf },
       { name := c.2 ++ "-" ++ c.1, bus0 := c.2, bus1 := c.1,
         p_nom := Flt.val (dp.get_transmission_capacity c.1 c.2 2020),
         p_min_pu := -1, p_max_pu := 1,
         marginal_cost := config.transmission_hurdle_cost,
         p_nom_extendable := false, p_nom_max := Flt.inf }]) ∧
    ((NetworkBuilder.create_network config 2030 dp).links.filter
        (fun l => decide (l.name ∈ NetworkBuilder.corridor_names c)) =
      [{ name := c.1 ++ "-" ++ c.2, bus0 := c.1, bus1 := c.2,
         p_nom := Flt.val (dp.get_transmission_capacity c.1 c.2 2020),
         p_min_pu := -1, p_max_pu := 1,
         marginal_cost := config.transmission_hurdle_cost,
         p_nom_extendable := true,
         p_nom_max := Flt.val (dp.get_transmission_capacity c.1 c.2 2030) },
       { name := c.2 ++ "-" ++ c.1, bus0 := c.2, bus1 := c.1,
         p_nom := Flt.val (dp.get_transmission_capacity c.1 c.2 2020),
         p_min_pu := -1, p_max_pu := 1,
         marginal_cost := config.transmission_hurdle_cost,
         p_nom_extendable := true,
         p_nom_max := Flt.val (dp.get_transmission_capacity c.1 c.2 2030) }]) ∧
    ((NetworkBuilder.create_network config 2050 dp).links.filter
        (fun l => decide (l.name ∈ NetworkBuilder.corridor_names c)) =
      [{ name := c.1 ++ "-" ++ c.2, bus0 := c.1, bus1 := c.2,
         p_nom := Flt.val (dp.get_transmission_capacity c.1 c.2 2020),
         p_min_pu := -1, p_max_pu := 1,
         marginal_cost := config.transmission_hurdle_cost,
         p_nom_extendable := true, p_nom_max := Flt.inf },
       { name := c.2 ++ "-" ++ c.1, bus0 := c.2, bus1 := c.1,
         p_nom := Flt.val (dp.get_transmission_capacity c.1 c.2 2020),
         p_min_pu := -1, p_max_pu := 1,
         marginal_cost := config.transmission_hurdle_cost,
         p_nom_extendable := true, p_nom_max := Flt.inf }]) := by
  refine ⟨?_, ?_, ?_⟩ <;>
  · simp only [NetworkBuilder.create_network]
    rw [NetworkBuilder.add_transmission_links_eq config.links _
        dp.get_transmission_capacity config.transmission_hurdle_cost hnd,
      NetworkBuilder.filter_pair_eq _ dp.get_transmission_capacity
        config.transmission_hurdle_cost config.links hnd c hc]
    rfl

/-- Witness for C2 at the demo corridor (base capacity 1000, near-horizon
target 1500). -/
theorem c2_witness :
    ((NetworkBuilder.create_network demo_config 2020 demo_dp).links.filter
        (fun l => decide (l.name ∈ NetworkBuilder.corridor_names ("North", "South"))) =
      [{ name := "North-South", bus0 := "North", bus1 := "South",
         p_nom := Flt.val 1000, p_min_pu := -1, p_max_pu := 1,
         marginal_cost := 1, p_nom_extendable := false, p_nom_max := Flt.inf },
       { name := "South-North", bus0 := "South", bus1 := "North",
         p_nom := Flt.val 1000, p_min_pu := -1, p_max_pu := 1,
         marginal_cost := 1, p_nom_extendable := false, p_nom_max := Flt.inf }]) ∧
    ((NetworkBuilder.create_network demo_config 2030 demo_dp).links.filter
        (fun l => decide (l.name ∈ NetworkBuilder.corridor_names ("North", "South"))) =
      [{ name := "North-South", bus0 := "North", bus1 := "South",
         p_nom := Flt.val 1000, p_min_pu := -1, p_max_pu := 1,
         marginal_cost := 1, p_nom_extendable := true, p_nom_max := Flt.val 1500 },
       { name := "South-North", bus0 := "South", bus1 := "North",
         p_nom := Flt.val 1000, p_min_pu := -1, p_max_pu := 1,
         marginal_cost := 1, p_nom_extendable := true, p_nom_max := Flt.val 1500 }]) ∧
    ((NetworkBuilder.create_network demo_config 2050 demo_dp).links.filter
        (fun l => decide (l.name ∈ NetworkBuilder.corridor_names ("North", "South"))) =
      [{ name := "North-South", bus0 := "North", bus1 := "South",
         p_nom := Flt.val 1000, p_min_pu := -1, p_max_pu := 1,
         marginal_cost := 1, p_nom_extendable := true, p_nom_max := Flt.inf },
       { name := "South-North", bus0 := "South", bus1 := "North",
         p_nom := Flt.val 1000, p_min_pu := -1, p_max_pu := 1,
         marginal_cost := 1, p_nom_extendable := true, p_nom_max := Flt.inf }]) :=
  c2_capacity_expansion_policy demo_config demo_dp (by decide) ("North", "South") (by decide)

namespace NetworkBuilder

theorem corridor_links_fields (year : ℕ) (getCap : String → String → ℕ → ℚ)
    (hurdle : ℚ) (c : String × String) :
    ∃ lf lr : Link, corridor_links year getCap hurdle c = [lf, lr] ∧
      lf.name = c.1 ++ "-" ++ c.2 ∧ lr.name = c.2 ++ "-" ++ c.1 ∧
      lf.bus0 = c.1 ∧ lf.bus1 = c.2 ∧ lr.bus0 = c.2 ∧ lr.bus1 = c.1 ∧
      lf.p_nom = lr.p_nom ∧ lf.p_nom_extendable = lr.p_nom_extendable ∧
      lf.p_nom_max = lr.p_nom_max ∧ lf.p_min_pu = lr.p_min_pu ∧
      lf.p_max_pu = lr.p_max_pu ∧ lf.marginal_cost = lr.marginal_cost := by
  simp only [corridor_links]
  generalize transmission_policy year (getCap c.1 c.2) = pol
  obtain ⟨cap, e, p⟩ := pol
  dsimp only
  have hpair : ∃ pm : Flt,
      resolve_link e p (mk_link (c.1 ++ "-" ++ c.2) c.1 c.2 cap hurdle e) =
        { mk_link (c.1 ++ "-" ++ c.2) c.1 c.2 cap hurdle e with p_nom_max := pm } ∧
      resolve_link e p (mk_link (c.2 ++ "-" ++ c.1) c.2 c.1 cap hurdle e) =
        { mk_link (c.2 ++ "-" ++ c.1) c.2 c.1 cap hurdle e with p_nom_max := pm } := by
    cases p with
    | none => exact ⟨Flt.inf, rfl, rfl⟩
    | some v =>
      cases e with
      | false => exact ⟨Flt.inf, rfl, rfl⟩
      | true => exact ⟨v, rfl, rfl⟩
  obtain ⟨pm, h1, h2⟩ := hpair
  rw [h1, h2]
  exact ⟨_, _, rfl, rfl, rfl, rfl, rfl, rfl, rfl, rfl, rfl, rfl, rfl, rfl, rfl⟩

end NetworkBuilder

/-- Claim C3: assembly always creates exactly `2 × #corridors` directed
links; and (under pairwise-distinct generated link names) each configured
corridor `(A,B)` yields exactly two links — one `A→B`, one `B→A` — whose
capacity, extendability, capacity upper bound, per-unit flow bounds, and
hurdle cost are pairwise identical, differing only in origin/destination. -/
theorem c3_two_symmetric_links_per_corridor (config : Config) (year : ℕ)
    (dp : DataProcessor) :
    (NetworkBuilder.create_network config year dp).links.length =
      2 * config.links.length ∧
    ((config.links.flatMap NetworkBuilder.corridor_names).Nodup →
      ∀ c ∈ config.links,
        ((NetworkBuilder.create_network config year dp).links.filter
            (fun l => decide (l.name ∈ NetworkBuilder.corridor_names c))).length = 2 ∧
        ∃ lf ∈ (NetworkBuilder.create_network config year dp).links,
          ∃ lr ∈ (NetworkBuilder.create_network config year dp).links,
            lf.name = c.1 ++ "-" ++ c.2 ∧ lr.name = c.2 ++ "-" ++ c.1 ∧
            lf.bus0 = c.1 ∧ lf.bus1 = c.2 ∧ lr.bus0 = c.2 ∧ lr.bus1 = c.1 ∧
            lf.p_nom = lr.p_nom ∧ lf.p_nom_extendable = lr.p_nom_extendable ∧
            lf.p_nom_max = lr.p_nom_max ∧ lf.p_min_pu = lr.p_min_pu ∧
            lf.p_max_pu = lr.p_max_pu ∧ lf.marginal_cost = lr.marginal_cost) := by
  constructor
  · simp only [NetworkBuilder.create_network]
    exact NetworkBuilder.add_transmission_links_length config.links year
      dp.get_transmission_capacity config.transmission_hurdle_cost
  · intro hnd c hc
    have hfil : (NetworkBuilder.create_network config year dp).links.filter
        (fun l => decide (l.name ∈ NetworkBuilder.corridor_names c)) =
        NetworkBuilder.corridor_links year dp.get_transmission_capacity
          config.transmission_hurdle_cost c := by
      simp only [NetworkBuilder.create_network]
      rw [NetworkBuilder.add_transmission_links_eq config.links year
        dp.get_transmission_capacity config.transmission_hurdle_cost hnd]
      exact NetworkBuilder.filter_pair_eq year dp.get_transmission_capacity
        config.transmission_hurdle_cost config.links hnd c hc
    obtain ⟨lf, lr, heq, h1, h2, h3, h4, h5, h6, h7, h8, h9, h10, h11, h12⟩ :=
      NetworkBuilder.corridor_links_fields year dp.get_transmission_capacity
        config.transmission_hurdle_cost c
    have hsub : ∀ l ∈ NetworkBuilder.corridor_links year dp.get_transmission_capacity
        config.transmission_hurdle_cost c,
        l ∈ (NetworkBuilder.create_network config year dp).links := by
      intro l hl
      have hmem : l ∈ (NetworkBuilder.create_network config year dp).links.filter
          (fun l => decide (l.name ∈ NetworkBuilder.corridor_names c)) := by
        rw [hfil]
        exact hl
      exact List.mem_of_mem_filter hmem
    constructor
    · rw [hfil, heq]
      rfl
    · exact ⟨lf, hsub lf (by rw [heq]; simp), lr, hsub lr (by rw [heq]; simp),
        h1, h2, h3, h4, h5, h6, h7, h8, h9, h10, h11, h12⟩

/-- Witness for C3 at the demo model: one corridor, two links, symmetric
parameters. -/
theorem c3_witness :
    (NetworkBuilder.create_network demo_config 2030 demo_dp).links.length =
      2 * demo_config.links.length ∧
    ((NetworkBuilder.create_network demo_config 2030 demo_dp).links.filter
        (fun l => decide (l.name ∈ NetworkBuilder.corridor_names ("North", "South")))).length = 2 ∧
    ∃ lf ∈ (NetworkBuilder.create_network demo_config 2030 demo_dp).links,
      ∃ lr ∈ (NetworkBuilder.create_network demo_config 2030 demo_dp).links,
        lf.name = "North" ++ "-" ++ "South" ∧ lr.name = "South" ++ "-" ++ "North" ∧
        lf.bus0 = "North" ∧ lf.bus1 = "South" ∧ lr.bus0 = "South" ∧ lr.bus1 = "North" ∧
        lf.p_nom = lr.p_nom ∧ lf.p_nom_extendable = lr.p_nom_extendable ∧
        lf.p_nom_max = lr.p_nom_max ∧ lf.p_min_pu = lr.p_min_pu ∧
        lf.p_max_pu = lr.p_max_pu ∧ lf.marginal_cost = lr.marginal_cost :=
  ⟨(c3_two_symmetric_links_per_corridor demo_config 2030 demo_dp).1,
   ((c3_two_symmetric_links_per_corridor demo_config 2030 demo_dp).2 (by decide)
     ("North", "South") (by decide)).1,
   ((c3_two_symmetric_links_per_corridor demo_config 2030 demo_dp).2 (by decide)
     ("North", "South") (by decide)).2⟩
